import Mathlib

set_option exponentiation.threshold 1100

/-!
Verification of the loan-underwriting engine of `lab-loan-dsa`
(`loan_system.py`, `backend.py`, `frontend.py`).

Two embeddings of the numeric core are used:

* an exact-arithmetic layer over `ℚ` (spec-level "decimal" semantics: Python's
  binary-float rounding is abstracted away, arithmetic is exact), used for the
  functional, algebraic and state-machine claims; the only non-finite outcome
  the exact layer can produce is the `+inf` sentinel of the caught
  `ZeroDivisionError` branch;
* a bounded "float" layer that additionally models representability:
  a finite Python float is abstracted as a rational of magnitude below
  `2 ^ 1024` (the IEEE-754 double overflow threshold; the half-ulp sliver just
  below it is immaterial at the inputs considered), conversion of a Python
  `int` out of that range raises `OverflowError`, the float power operator
  raises `OverflowError` past the range, and float multiplication or
  subtraction overflow silently to the infinities.  This layer is used for the
  overflow-sentinel and division-by-zero claims.
-/

/-- Result of the console monthly-payment computation in the exact layer:
either a finite (exact rational) amount or the `float('inf')` sentinel
returned by the `except (ZeroDivisionError, OverflowError)` handler. -/
inductive FVal where
  | fin : ℚ → FVal
  | inf : FVal
deriving DecidableEq, Repr

/-- `DEBT_RATIO_LIMIT = 0.50` (`loan_system.py` line 13, `backend.py` line 12).
The float `0.50` is exactly `1/2`. -/
def DEBT_RATIO_LIMIT : ℚ := 1 / 2

/-- One entry of the `LOAN_OPTIONS` catalog. -/
structure LoanOption where
  name : String
  rate : ℚ
  max_term : ℤ
deriving DecidableEq, Repr

/-- `LOAN_OPTIONS` (`loan_system.py` lines 6-10): Housing 5.2 % / 25 y,
Auto 7.5 % / 6 y, Personal 9.6 % / 10 y (rates read as exact decimals). -/
def LOAN_OPTIONS : List LoanOption :=
  [⟨"Housing Loan", 26 / 5, 25⟩, ⟨"Auto Loan", 15 / 2, 6⟩, ⟨"Personal Loan", 48 / 5, 10⟩]

/-- `calculate_monthly_payment` (`loan_system.py` lines 19-41, identically
`backend.py` lines 19-33), exact layer.  Structure mirrors the source:
degenerate guard first, then `monthly_rate = annual_rate / 100 / 12`,
`num_payments = term_years * 12`, the zero-rate simple division, and the
amortization formula `P * r * (1+r)^n / ((1+r)^n - 1)`; a zero denominator
is the `ZeroDivisionError` caught into `float('inf')`. -/
def calculate_monthly_payment (principal annual_rate : ℚ) (term_years : ℤ) : FVal :=
  if principal ≤ 0 ∨ term_years ≤ 0 then .fin 0
  else if annual_rate / 100 / 12 = 0 then
    .fin (principal / ((term_years * 12 : ℤ) : ℚ))
  else if (1 + annual_rate / 100 / 12) ^ (term_years * 12).toNat - 1 = 0 then .inf
  else
    .fin (principal * (annual_rate / 100 / 12) * (1 + annual_rate / 100 / 12) ^ (term_years * 12).toNat
      / ((1 + annual_rate / 100 / 12) ^ (term_years * 12).toNat - 1))

/-- `calculate_total_interest` (`loan_system.py` lines 43-46, `backend.py`
lines 35-38), exact layer, for a finite monthly payment:
`monthly_payment * (term_years * 12) - principal`. -/
def calculate_total_interest (principal monthly_payment : ℚ) (term_years : ℤ) : ℚ :=
  monthly_payment * ((term_years : ℚ) * 12) - principal

/-- `calculate_max_monthly_payment` (`backend.py` lines 57-58); the console
`main` computes the same product inline (`loan_system.py` line 122). -/
def calculate_max_monthly_payment (monthly_income : ℚ) : ℚ :=
  monthly_income * DEBT_RATIO_LIMIT

/-- The affordability comparison `monthly_payment <= max_monthly_payment`
(`loan_system.py` line 128, `frontend.py` line 163).  Python's order makes
`inf <= finite` false. -/
def is_affordable (monthly_payment : FVal) (monthly_income : ℚ) : Bool :=
  match monthly_payment with
  | .fin m => m ≤ calculate_max_monthly_payment monthly_income
  | .inf => false

/-- `validate_term_selection` (`backend.py` lines 53-55): `1 <= term <= max_term`;
the console `get_loan_term` (`loan_system.py` lines 74-84) accepts exactly the
same range. -/
def validate_term_selection (term max_term : ℤ) : Bool :=
  1 ≤ term ∧ term ≤ max_term

/-- The acceptance test of `get_positive_float` (`loan_system.py` lines 63-72):
only values `> 0` are returned. -/
def positive_float_accepts (value : ℚ) : Bool :=
  0 < value

/-- C1: the maximum allowed payment is `monthlyIncome * 0.50`, and the
affordability check is true exactly when the monthly payment is at most that
bound, inclusively at the boundary; an infinite payment is never affordable. -/
theorem affordability_policy_correct :
    (∀ income : ℚ, calculate_max_monthly_payment income = income * (1 / 2)) ∧
    (∀ m income : ℚ, is_affordable (.fin m) income = true ↔ m ≤ income * (1 / 2)) ∧
    (∀ income : ℚ, is_affordable (.fin (calculate_max_monthly_payment income)) income = true) ∧
    (∀ income : ℚ, is_affordable .inf income = false) := by
  refine ⟨fun income => rfl, fun m income => ?_, fun income => ?_, fun income => rfl⟩
  · simp [is_affordable, calculate_max_monthly_payment, DEBT_RATIO_LIMIT]
  · simp [is_affordable]

/-- At annual rate 0 and positive principal and term, the computation takes the
simple-division branch. -/
lemma payment_eq_zero_rate (P : ℚ) (T : ℤ) (hP : 0 < P) (hT : 0 < T) :
    calculate_monthly_payment P 0 T = .fin (P / ((T : ℚ) * 12)) := by
  unfold calculate_monthly_payment
  rw [if_neg (by push_neg; exact ⟨hP, hT⟩), if_pos (by norm_num)]
  congr 1
  push_cast
  ring

/-- At a positive annual rate and positive principal and in-range term, the
computation takes the amortization branch and its denominator is nonzero. -/
lemma payment_eq_pos_rate (P r : ℚ) (T : ℤ) (hP : 0 < P) (hr : 0 < r) (hT : 1 ≤ T) :
    calculate_monthly_payment P r T =
      .fin (P * (r / 100 / 12) * (1 + r / 100 / 12) ^ (T * 12).toNat
        / ((1 + r / 100 / 12) ^ (T * 12).toNat - 1)) ∧
      1 < (1 + r / 100 / 12) ^ (T * 12).toNat := by
  have hq : 0 < r / 100 / 12 := by positivity
  have ha : 1 < 1 + r / 100 / 12 := by linarith
  have hn : (T * 12).toNat ≠ 0 := by
    rw [Ne, Int.toNat_eq_zero]
    omega
  have hpow : 1 < (1 + r / 100 / 12) ^ (T * 12).toNat := one_lt_pow₀ ha hn
  refine ⟨?_, hpow⟩
  unfold calculate_monthly_payment
  rw [if_neg (by push_neg; exact ⟨hP, by omega⟩), if_neg (ne_of_gt hq),
    if_neg (sub_ne_zero.mpr (ne_of_gt hpow))]

/-- C2: at annual rate 0 and positive principal and term, the monthly payment
is exactly `principal / (term_years * 12)`, plain division. -/
theorem zero_rate_payment (P : ℚ) (T : ℤ) (hP : 0 < P) (hT : 0 < T) :
    calculate_monthly_payment P 0 T = .fin (P / ((T : ℚ) * 12)) :=
  payment_eq_zero_rate P T hP hT

/-- Witness for C2 at the spec scenario `P = 12000`, rate 0, term 1 year:
the payment is exactly 1000. -/
theorem zero_rate_payment_witness :
    (0 : ℚ) < 12000 ∧ (0 : ℤ) < 1 ∧
      calculate_monthly_payment 12000 0 1 = .fin (12000 / ((1 : ℚ) * 12)) :=
  ⟨by norm_num, by norm_num, zero_rate_payment 12000 1 (by norm_num) (by norm_num)⟩

/-- C4 counterexample: at principal 100, rate 5, term 0 (so "term ≤ 0" holds),
the monthly payment is the degenerate 0, but the total-interest computation at
that payment gives -100, not 0: `calculate_total_interest` has no degenerate
guard and returns `0 * (term*12) - principal = -principal`. -/
theorem degenerate_total_interest_counterexample :
    calculate_monthly_payment 100 5 0 = .fin 0 ∧
    calculate_total_interest 100 0 0 = -100 ∧ ((-100 : ℚ) ≠ 0) := by
  refine ⟨by decide, ?_, by norm_num⟩
  unfold calculate_total_interest
  norm_num

/-- C4 amended: for principal ≤ 0 or term ≤ 0 (any rate) the monthly payment
is the degenerate 0 and no error is raised, but composing with the
total-interest computation yields `-principal`, which is 0 only when the
principal itself is 0. -/
theorem degenerate_quote (P r : ℚ) (T : ℤ) (h : P ≤ 0 ∨ T ≤ 0) :
    calculate_monthly_payment P r T = .fin 0 ∧
    calculate_total_interest P 0 T = -P := by
  constructor
  · unfold calculate_monthly_payment
    rw [if_pos h]
  · unfold calculate_total_interest
    ring

/-- Witness for the amended C4 at principal 100, rate 5, term 0. -/
theorem degenerate_quote_witness :
    ((100 : ℚ) ≤ 0 ∨ (0 : ℤ) ≤ 0) ∧
      (calculate_monthly_payment 100 5 0 = .fin 0 ∧
        calculate_total_interest 100 0 0 = -100) :=
  ⟨Or.inr (by norm_num), degenerate_quote 100 5 0 (Or.inr (by norm_num))⟩

/-- C8: for fixed principal > 0 and annual rate ≥ 0, increasing the term
strictly decreases the monthly payment (in particular the disjunction stated
by the spec — strict decrease, or equality in the zero-rate case — holds). -/
theorem monthly_payment_antitone_in_term (P r : ℚ) (T1 T2 : ℤ)
    (hP : 0 < P) (hr : 0 ≤ r) (hT1 : 1 ≤ T1) (hlt : T1 < T2) :
    ∃ m1 m2 : ℚ, calculate_monthly_payment P r T1 = .fin m1 ∧
      calculate_monthly_payment P r T2 = .fin m2 ∧
      (m2 < m1 ∨ (r = 0 ∧ m2 = m1)) := by
  rcases eq_or_lt_of_le hr with h0 | hpos
  · -- zero-rate branch: payments are P / (12 T), strictly antitone in T
    refine ⟨P / ((T1 : ℚ) * 12), P / ((T2 : ℚ) * 12), ?_, ?_, Or.inl ?_⟩
    · rw [← h0]; exact payment_eq_zero_rate P T1 hP (by omega)
    · rw [← h0]; exact payment_eq_zero_rate P T2 hP (by omega)
    · have hT1Q : (0 : ℚ) < (T1 : ℚ) * 12 := by
        have : (0 : ℚ) < (T1 : ℚ) := by exact_mod_cast (by omega : (0 : ℤ) < T1)
        linarith
      have hltQ : (T1 : ℚ) * 12 < (T2 : ℚ) * 12 := by
        have : (T1 : ℚ) < (T2 : ℚ) := by exact_mod_cast hlt
        linarith
      exact div_lt_div_of_pos_left hP hT1Q hltQ
  · -- positive-rate branch: the amortization formula is strictly antitone in
    -- the exponent
    obtain ⟨he1, hx⟩ := payment_eq_pos_rate P r T1 hP hpos hT1
    obtain ⟨he2, hy⟩ := payment_eq_pos_rate P r T2 hP hpos (by omega)
    have hq : 0 < r / 100 / 12 := by positivity
    have ha : 1 < 1 + r / 100 / 12 := by linarith
    have hnn : (T1 * 12).toNat < (T2 * 12).toNat := by
      rw [Int.toNat_lt_toNat (by omega : (0 : ℤ) < T2 * 12)]
      omega
    have hxy : (1 + r / 100 / 12) ^ (T1 * 12).toNat < (1 + r / 100 / 12) ^ (T2 * 12).toNat :=
      pow_lt_pow_right₀ ha hnn
    refine ⟨_, _, he1, he2, Or.inl ?_⟩
    rw [div_lt_div_iff₀ (by linarith) (by linarith)]
    nlinarith [mul_pos (mul_pos hP hq)
      (sub_pos.mpr hxy)]

/-- Witness for C8 at the Housing rate 5.2 %, principal 100000, terms 10 < 20. -/
theorem monthly_payment_antitone_witness :
    (0 : ℚ) < 100000 ∧ (0 : ℚ) ≤ 26 / 5 ∧ (1 : ℤ) ≤ 10 ∧ (10 : ℤ) < 20 ∧
      (∃ m1 m2 : ℚ, calculate_monthly_payment 100000 (26 / 5) 10 = .fin m1 ∧
        calculate_monthly_payment 100000 (26 / 5) 20 = .fin m2 ∧
        (m2 < m1 ∨ ((26 / 5 : ℚ) = 0 ∧ m2 = m1))) :=
  ⟨by norm_num, by norm_num, by norm_num, by norm_num,
    monthly_payment_antitone_in_term 100000 (26 / 5) 10 20
      (by norm_num) (by norm_num) (by norm_num) (by norm_num)⟩

/-- Two-decimal display and persistence formatting of amounts (the `:.2f` and
`:,.2f` format specifiers in `loan_system.py` lines 125, 163-164, 170-172 and
`frontend.py` lines 156-157, 173-174), modelled as exact rounding to
hundredths; none of the inputs considered sits at a tie, where Python's
binary-float round-half-even could differ from `round`. -/
def round2 (q : ℚ) : ℚ := round (q * 100) / 100

/-- Characterisation of `round2` by floor bounds, used to evaluate it on
concrete rationals. -/
lemma round2_eq (q : ℚ) (n : ℤ) (h1 : (n : ℚ) ≤ q * 100 + 1 / 2)
    (h2 : q * 100 + 1 / 2 < (n : ℚ) + 1) :
    round2 q = (n : ℚ) / 100 := by
  unfold round2
  rw [round_eq, show ⌊q * 100 + 1 / 2⌋ = n from Int.floor_eq_iff.mpr ⟨h1, h2⟩]

/-- Rounding to hundredths moves a value by at most half a cent. -/
lemma round2_sub_le (x : ℚ) : |round2 x - x| ≤ 1 / 200 := by
  have h : |x * 100 - round (x * 100)| ≤ 1 / 2 := abs_sub_round (x * 100)
  have heq : round2 x - x = -((x * 100 - round (x * 100)) / 100) := by
    unfold round2
    ring
  rw [heq, abs_neg, abs_div, abs_of_pos (show (0 : ℚ) < 100 by norm_num)]
  linarith

/-- Two independently rounded values differ by at most the raw difference plus
one cent. -/
lemma abs_round2_sub_round2 (x y : ℚ) : |round2 x - round2 y| ≤ |x - y| + 1 / 100 := by
  have h1 := round2_sub_le x
  have h2 := round2_sub_le y
  have h3 : |y - round2 y| ≤ 1 / 200 := by
    rw [abs_sub_comm]
    exact h2
  have hsplit : round2 x - round2 y = (round2 x - x) + (x - y) + (y - round2 y) := by ring
  calc |round2 x - round2 y|
      = |(round2 x - x) + (x - y) + (y - round2 y)| := by rw [hsplit]
    _ ≤ |(round2 x - x) + (x - y)| + |y - round2 y| := abs_add _ _
    _ ≤ |round2 x - x| + |x - y| + |y - round2 y| := by
        have := abs_add (round2 x - x) (x - y)
        linarith
    _ ≤ |x - y| + 1 / 100 := by linarith

/-- C10 counterexample: for the Auto rate (7.5 %), principal 1000, term 1 year,
the finalized record's total interest is the two-decimal rounding of the total
interest computed from the RAW monthly payment (41.09), while recomputing it
from the two-decimal displayed payment (86.76) gives 41.12: the code does not
pass the payment through the display formatting before
`calculate_total_interest`, and the two values drift. -/
theorem total_interest_double_rounding_counterexample :
    calculate_monthly_payment 1000 (15 / 2) 1
        = .fin (25 * 161 ^ 12 / (4 * (161 ^ 12 - 160 ^ 12))) ∧
    round2 (calculate_total_interest 1000
        (25 * 161 ^ 12 / (4 * (161 ^ 12 - 160 ^ 12))) 1) = 4109 / 100 ∧
    round2 (calculate_total_interest 1000
        (round2 (25 * 161 ^ 12 / (4 * (161 ^ 12 - 160 ^ 12)))) 1) = 1028 / 25 ∧
    ((4109 / 100 : ℚ) ≠ 1028 / 25) := by
  refine ⟨?_, ?_, ?_, by norm_num⟩
  · rw [(payment_eq_pos_rate 1000 (15 / 2) 1 (by norm_num) (by norm_num) (by norm_num)).1]
    congr 1
    norm_num [show ((1 : ℤ) * 12).toNat = 12 from rfl, show Int.toNat 12 = 12 from rfl]
  · rw [round2_eq (calculate_total_interest 1000
        (25 * 161 ^ 12 / (4 * (161 ^ 12 - 160 ^ 12))) 1) 4109
      (by unfold calculate_total_interest; push_cast; norm_num)
      (by unfold calculate_total_interest; push_cast; norm_num)]
    norm_num
  · rw [round2_eq (25 * 161 ^ 12 / (4 * (161 ^ 12 - 160 ^ 12))) 8676
      (by norm_num) (by norm_num)]
    rw [round2_eq (calculate_total_interest 1000 (((8676 : ℤ) : ℚ) / 100) 1) 4112
      (by unfold calculate_total_interest; push_cast; norm_num)
      (by unfold calculate_total_interest; push_cast; norm_num)]
    norm_num

/-- C10 amended: the displayed and saved total interest is computed from the
raw (unrounded) monthly payment and then rounded, so it can drift from the
value recomputed from the displayed two-decimal payment; the drift is bounded
by half a cent per payment plus the final rounding. -/
theorem total_interest_double_rounding_bound (P r m : ℚ) (T : ℤ) (hT : 1 ≤ T)
    (hm : calculate_monthly_payment P r T = .fin m) :
    |round2 (calculate_total_interest P m T) -
        round2 (calculate_total_interest P (round2 m) T)|
      ≤ ((T : ℚ) * 12) / 200 + 1 / 100 := by
  have hT0 : (0 : ℚ) ≤ (T : ℚ) * 12 := by
    have : (0 : ℚ) ≤ (T : ℚ) := by exact_mod_cast (by omega : (0 : ℤ) ≤ T)
    linarith
  have hm2 : |m - round2 m| ≤ 1 / 200 := by
    have := round2_sub_le m
    rwa [abs_sub_comm] at this
  have hAB : calculate_total_interest P m T - calculate_total_interest P (round2 m) T
      = (m - round2 m) * ((T : ℚ) * 12) := by
    unfold calculate_total_interest
    ring
  have h4 : |calculate_total_interest P m T - calculate_total_interest P (round2 m) T|
      ≤ (1 / 200) * ((T : ℚ) * 12) := by
    rw [hAB, abs_mul, abs_of_nonneg hT0]
    exact mul_le_mul_of_nonneg_right hm2 hT0
  have h5 := abs_round2_sub_round2 (calculate_total_interest P m T)
    (calculate_total_interest P (round2 m) T)
  linarith

/-- Witness for the amended C10 at the counterexample's input. -/
theorem total_interest_double_rounding_bound_witness :
    (1 : ℤ) ≤ 1 ∧
    calculate_monthly_payment 1000 (15 / 2) 1
        = .fin (25 * 161 ^ 12 / (4 * (161 ^ 12 - 160 ^ 12))) ∧
    |round2 (calculate_total_interest 1000
          (25 * 161 ^ 12 / (4 * (161 ^ 12 - 160 ^ 12))) 1) -
        round2 (calculate_total_interest 1000
          (round2 (25 * 161 ^ 12 / (4 * (161 ^ 12 - 160 ^ 12)))) 1)|
      ≤ (((1 : ℤ) : ℚ) * 12) / 200 + 1 / 100 := by
  have hpay : calculate_monthly_payment 1000 (15 / 2) 1
      = .fin (25 * 161 ^ 12 / (4 * (161 ^ 12 - 160 ^ 12))) := by
    rw [(payment_eq_pos_rate 1000 (15 / 2) 1 (by norm_num) (by norm_num) (by norm_num)).1]
    congr 1
    norm_num [show ((1 : ℤ) * 12).toNat = 12 from rfl, show Int.toNat 12 = 12 from rfl]
  exact ⟨le_refl 1, hpay,
    total_interest_double_rounding_bound 1000 (15 / 2)
      (25 * 161 ^ 12 / (4 * (161 ^ 12 - 160 ^ 12))) 1 (le_refl 1) hpay⟩

/-- `CSV_FILE` (`loan_system.py` line 14, `backend.py` line 13). -/
def CSV_FILE : String := "loan_records.csv"

/-- A finalized loan record (`loan_system.py` lines 169-174, `frontend.py`
lines 168-176): the two-decimal-formatted snapshot plus the literal
`Finalized` status. -/
structure LoanRecord where
  loan_type : String
  loan_amount : ℚ
  interest_rate : ℚ
  term : ℤ
  monthly_payment : FVal
  total_interest : FVal
  status : String
deriving DecidableEq, Repr

/-- Two-decimal formatting lifted to the payment value (`inf` prints as is). -/
def round2F : FVal → FVal
  | .fin m => .fin (round2 m)
  | .inf => .inf

/-- `calculate_total_interest` applied to a possibly infinite payment, as in
the finalization path; an infinite payment propagates (positive term). -/
def total_interest_fval (principal : ℚ) (m : FVal) (term : ℤ) : FVal :=
  match m with
  | .fin x => .fin (calculate_total_interest principal x term)
  | .inf => .inf

/-- The `loan_record` dict built at finalization (`loan_system.py` 169-174). -/
def mkLoanRecord (name : String) (principal rate : ℚ) (term : ℤ) (payment : FVal) :
    LoanRecord :=
  { loan_type := name, loan_amount := round2 principal, interest_rate := rate,
    term := term, monthly_payment := round2F payment,
    total_interest := round2F (total_interest_fval principal payment term),
    status := "Finalized" }

/-- The fixed data of one console session: chosen catalog entry and income. -/
structure SessionCtx where
  name : String
  rate : ℚ
  max_term : ℤ
  income : ℚ

/-- State of the negotiation loop of `main` (`loan_system.py` lines 120-151):
re-entrant evaluation with current principal and term, or one of the two
terminal outcomes (`principal = None` encodes cancellation in the source). -/
inductive SessionState where
  | evaluating (principal : ℚ) (term : ℤ)
  | approved (principal : ℚ) (term : ℤ) (payment : FVal)
  | cancelled
deriving DecidableEq, Repr

/-- The adjustment options printed on a rejected round (`loan_system.py`
lines 135-147): term adjustment is listed only while `term < max_term`. -/
def adjustment_menu (term max_term : ℤ) : List String :=
  if term < max_term then ["Adjust Term", "Change Loan Amount", "Cancel Loan"]
  else ["Change Loan Amount", "Cancel Loan"]

/-- One round of the negotiation loop (`loan_system.py` lines 120-151).
`reply` is the raw menu input; `new_term` and `new_principal` are the values a
re-prompt of `get_loan_term` / `get_positive_float` would return, consumed
only in the branches that prompt for them.  In the at-max-term menu the reply
`'1'` changes the principal and anything else cancels; below the maximum,
`'1'` adjusts the term, `'2'` the principal, anything else cancels. -/
def negotiationStep (ctx : SessionCtx) (s : SessionState) (reply : String)
    (new_term : ℤ) (new_principal : ℚ) : SessionState :=
  match s with
  | .evaluating principal term =>
    if is_affordable (calculate_monthly_payment principal ctx.rate term) ctx.income then
      .approved principal term (calculate_monthly_payment principal ctx.rate term)
    else if term < ctx.max_term then
      if reply = "1" then .evaluating principal new_term
      else if reply = "2" then .evaluating new_principal term
      else .cancelled
    else
      if reply = "1" then .evaluating new_principal term
      else .cancelled
  | s => s

/-- The post-loop save decision (`loan_system.py` lines 154-177): only an
approved session with the `yes` confirmation appends a record; a cancelled
session (`principal is None`) skips the summary and saves nothing. -/
def finalize (ctx : SessionCtx) (s : SessionState) (proceed : String)
    (store : List LoanRecord) : List LoanRecord :=
  match s with
  | .approved p t payment =>
      if proceed = "yes" then store ++ [mkLoanRecord ctx.name p ctx.rate t payment]
      else store
  | _ => store

/-- Bounds that the front-end validators guarantee for the live state:
positive principal and a term within `[1, max_term]`. -/
def validState (ctx : SessionCtx) : SessionState → Bool
  | .evaluating p t => positive_float_accepts p && validate_term_selection t ctx.max_term
  | .approved p t _ => positive_float_accepts p && validate_term_selection t ctx.max_term
  | .cancelled => true

/-- Iterating negotiation rounds over a list of user inputs. -/
def stepsFrom (ctx : SessionCtx) (s : SessionState) :
    List (String × ℤ × ℚ) → SessionState
  | [] => s
  | e :: rest => stepsFrom ctx (negotiationStep ctx s e.1 e.2.1 e.2.2) rest

/-- C5: in a rejected round whose term is already the category maximum, the
menu offers only change-principal and cancel, every transition keeps the term
unchanged (term extension is not reachable), the cancel reply yields the
terminal Cancelled state, and a cancelled session appends no record. -/
theorem max_term_round_offers_no_extension (ctx : SessionCtx) (P : ℚ) (T : ℤ)
    (hT : T = ctx.max_term)
    (hrej : is_affordable (calculate_monthly_payment P ctx.rate T) ctx.income = false) :
    adjustment_menu T ctx.max_term = ["Change Loan Amount", "Cancel Loan"] ∧
    (∀ (reply : String) (nt : ℤ) (np : ℚ),
      negotiationStep ctx (.evaluating P T) reply nt np = .evaluating np T ∨
      negotiationStep ctx (.evaluating P T) reply nt np = .cancelled) ∧
    (∀ (nt : ℤ) (np : ℚ), negotiationStep ctx (.evaluating P T) "2" nt np = .cancelled) ∧
    (∀ (proceed : String) (store : List LoanRecord),
      finalize ctx .cancelled proceed store = store) := by
  have hnotlt : ¬ T < ctx.max_term := by omega
  have hstep : ∀ (reply : String) (nt : ℤ) (np : ℚ),
      negotiationStep ctx (.evaluating P T) reply nt np =
        if reply = "1" then .evaluating np T else .cancelled := by
    intro reply nt np
    simp only [negotiationStep]
    rw [if_neg (by rw [hrej]; exact Bool.false_ne_true), if_neg hnotlt]
  refine ⟨by unfold adjustment_menu; rw [if_neg hnotlt], ?_, ?_, ?_⟩
  · intro reply nt np
    rw [hstep reply nt np]
    by_cases h1 : reply = "1"
    · rw [if_pos h1]; exact Or.inl rfl
    · rw [if_neg h1]; exact Or.inr rfl
  · intro nt np
    rw [hstep "2" nt np, if_neg (by decide)]
  · intro proceed store
    rfl

/-- Witness for C5 at the spec scenario: Auto loan (7.5 %, max term 6),
principal 30000, income 500, term 6: the payment is rejected, choosing cancel
reaches Cancelled, and no record is appended. -/
theorem max_term_round_offers_no_extension_witness :
    is_affordable (calculate_monthly_payment 30000 (15 / 2) 6) 500 = false ∧
    adjustment_menu 6 6 = ["Change Loan Amount", "Cancel Loan"] ∧
    (∀ (nt : ℤ) (np : ℚ),
      negotiationStep ⟨"Auto Loan", 15 / 2, 6, 500⟩ (.evaluating 30000 6) "2" nt np
        = .cancelled) ∧
    (∀ (proceed : String) (store : List LoanRecord),
      finalize ⟨"Auto Loan", 15 / 2, 6, 500⟩ .cancelled proceed store = store) := by
  have hrej : is_affordable (calculate_monthly_payment 30000 (15 / 2) 6) 500 = false := by
    rw [(payment_eq_pos_rate 30000 (15 / 2) 6 (by norm_num) (by norm_num) (by norm_num)).1]
    simp only [is_affordable, calculate_max_monthly_payment, DEBT_RATIO_LIMIT,
      decide_eq_false_iff_not, not_le]
    norm_num [show ((6 : ℤ) * 12).toNat = 72 from rfl, show Int.toNat 72 = 72 from rfl]
  have h := max_term_round_offers_no_extension ⟨"Auto Loan", 15 / 2, 6, 500⟩ 30000 6 rfl hrej
  exact ⟨hrej, h.1, h.2.2.1, h.2.2.2⟩

/-- A single negotiation round preserves the validated bounds when the values
a re-prompt returns are themselves validated. -/
lemma validState_step (ctx : SessionCtx) (s : SessionState) (reply : String)
    (nt : ℤ) (np : ℚ) (hs : validState ctx s = true)
    (hnt : validate_term_selection nt ctx.max_term = true)
    (hnp : positive_float_accepts np = true) :
    validState ctx (negotiationStep ctx s reply nt np) = true := by
  cases s with
  | evaluating p t =>
      have hbounds := hs
      simp only [validState, Bool.and_eq_true] at hbounds
      simp only [negotiationStep]
      split_ifs with h1 h2 h3 h4
      · simpa [validState, Bool.and_eq_true] using hbounds
      · simp [validState, Bool.and_eq_true, hbounds.1, hnt]
      · simp [validState, Bool.and_eq_true, hbounds.2, hnp]
      · rfl
      · simp [validState, Bool.and_eq_true, hbounds.2, hnp]
      · rfl
  | approved p t payment => exact hs
  | cancelled => exact hs

/-- Folding validated rounds keeps any valid state valid. -/
lemma validState_stepsFrom (ctx : SessionCtx) (script : List (String × ℤ × ℚ))
    (hscript : ∀ e ∈ script, validate_term_selection e.2.1 ctx.max_term = true ∧
      positive_float_accepts e.2.2 = true) :
    ∀ s, validState ctx s = true → validState ctx (stepsFrom ctx s script) = true := by
  induction script with
  | nil => intro s hs; exact hs
  | cons e rest ih =>
      intro s hs
      have he := hscript e (List.mem_cons_self e rest)
      have hrest : ∀ x ∈ rest, validate_term_selection x.2.1 ctx.max_term = true ∧
          positive_float_accepts x.2.2 = true :=
        fun x hx => hscript x (List.mem_cons_of_mem e hx)
      exact ih hrest _ (validState_step ctx s e.1 e.2.1 e.2.2 hs he.1 he.2)

/-- C6: starting from validated inputs (positive principal, term accepted by
the range check) and feeding every round only re-prompt values that the
front-end validators accept, every reachable state still evaluates with a
positive principal and a term in `[1, max_term]`. -/
theorem evaluation_inputs_stay_validated (ctx : SessionCtx) (P : ℚ) (T : ℤ)
    (script : List (String × ℤ × ℚ))
    (hP : positive_float_accepts P = true)
    (hT : validate_term_selection T ctx.max_term = true)
    (hscript : ∀ e ∈ script, validate_term_selection e.2.1 ctx.max_term = true ∧
      positive_float_accepts e.2.2 = true) :
    validState ctx (stepsFrom ctx (.evaluating P T) script) = true :=
  validState_stepsFrom ctx script hscript _ (by simp [validState, hP, hT])

/-- Witness for C6: Auto-loan session from principal 30000, term 6, with a
principal change and then a term change, ends in a valid state. -/
theorem evaluation_inputs_stay_validated_witness :
    positive_float_accepts (30000 : ℚ) = true ∧
    validate_term_selection 6 (SessionCtx.max_term ⟨"Auto Loan", 15 / 2, 6, 500⟩) = true ∧
    (∀ e ∈ [(("1" : String), ((3 : ℤ), (10000 : ℚ))), (("2" : String), ((2 : ℤ), (500 : ℚ)))],
      validate_term_selection e.2.1 (SessionCtx.max_term ⟨"Auto Loan", 15 / 2, 6, 500⟩) = true ∧
      positive_float_accepts e.2.2 = true) ∧
    validState ⟨"Auto Loan", 15 / 2, 6, 500⟩
      (stepsFrom ⟨"Auto Loan", 15 / 2, 6, 500⟩ (.evaluating 30000 6)
        [(("1" : String), ((3 : ℤ), (10000 : ℚ))), (("2" : String), ((2 : ℤ), (500 : ℚ)))])
      = true :=
  ⟨by decide, by decide, by decide,
    evaluation_inputs_stay_validated ⟨"Auto Loan", 15 / 2, 6, 500⟩ 30000 6
      [(("1" : String), ((3 : ℤ), (10000 : ℚ))), (("2" : String), ((2 : ℤ), (500 : ℚ)))]
      (by decide) (by decide) (by decide)⟩

/-- `save_loan_record` (`backend.py` lines 40-51): opening and appending to
the store is abstracted by `writable`; on success the record is appended and a
success message is shown, on `IOError` the store is unchanged and the error
dialog text "Error: Could not write to file loan_records.csv." together with
the underlying cause is shown; the exception is swallowed, nothing re-raises.
The header-on-first-write detail is not relevant to the claims and is not
modelled. -/
def save_loan_record (writable : Bool) (cause : String) (store : List LoanRecord)
    (record : LoanRecord) : List LoanRecord × List String :=
  if writable then
    (store ++ [record], ["Loan record successfully saved to " ++ CSV_FILE ++ "."])
  else
    (store, ["Error: Could not write to file " ++ CSV_FILE ++ ". " ++ cause])

/-- In-memory state of the form application that the claims inspect
(`frontend.py`): the stored details of the last approved calculation. -/
structure AppState where
  current_loan_details : Option LoanRecord
deriving DecidableEq

/-- `LoanApp.reset_form` (`frontend.py` lines 192-202): clears the stored
details (the widget clearing is not modelled). -/
def reset_form (_ : AppState) : AppState :=
  { current_loan_details := none }

/-- `LoanApp.save_loan` (`frontend.py` lines 184-190): with stored details it
calls `save_loan_record` and then `reset_form()` unconditionally — the reset
is not guarded by the success of the save, since `save_loan_record` reports
failure only through the dialog. -/
def save_loan (writable : Bool) (cause : String) (s : AppState)
    (store : List LoanRecord) : AppState × List LoanRecord × List String :=
  match s.current_loan_details with
  | some record =>
      ((reset_form s), (save_loan_record writable cause store record).1,
        (save_loan_record writable cause store record).2)
  | none => (s, store, ["No valid loan details to save. Please calculate a loan first."])

/-- C7 (code bug): on an unwritable store the failure is reported with the
underlying cause and the store is unchanged — but the frontend then resets the
form anyway, so the in-memory approved details are discarded after the FAILED
save, although the user never reset; this contradicts the claim and the
source's own comment `Reset after successful save`. -/
theorem failed_save_discards_approved_state :
    (save_loan false "Permission denied"
        ⟨some (mkLoanRecord "Auto Loan" 30000 (15 / 2) 6 (.fin 250))⟩ []).2.2
      = ["Error: Could not write to file loan_records.csv. Permission denied"] ∧
    (save_loan false "Permission denied"
        ⟨some (mkLoanRecord "Auto Loan" 30000 (15 / 2) 6 (.fin 250))⟩ []).2.1 = [] ∧
    (save_loan false "Permission denied"
        ⟨some (mkLoanRecord "Auto Loan" 30000 (15 / 2) 6 (.fin 250))⟩
        []).1.current_loan_details = none :=
  ⟨rfl, rfl, rfl⟩

/-- Python exceptions relevant to the numeric core. -/
inductive PyErr where
  | overflowError
  | zeroDivisionError
deriving DecidableEq, Repr

/-- A Python float in the bounded layer: a finite value (exact rational, with
binary rounding abstracted away), one of the IEEE infinities, or NaN. -/
inductive PF where
  | fin : ℚ → PF
  | inf : PF
  | ninf : PF
  | nan : PF
deriving DecidableEq, Repr

/-- Magnitude threshold past which a real value is no longer representable as
a finite IEEE-754 double.  The exact threshold is `2^1024 - 2^970` rounded;
the inputs the claims evaluate are many orders of magnitude away from the
difference. -/
def FLOAT_BOUND : ℚ := 2 ^ 1024

/-- A real arithmetic result as a float: silent overflow to the infinities
(IEEE default rounding), otherwise the exact value. -/
def clampF (q : ℚ) : PF :=
  if FLOAT_BOUND ≤ q then .inf
  else if q ≤ -FLOAT_BOUND then .ninf
  else .fin q

/-- `PyLong_AsDouble`: converting a Python `int` used as a float operand
raises `OverflowError` when it is out of the representable range. -/
def intToFloat (n : ℤ) : Except PyErr ℚ :=
  if FLOAT_BOUND ≤ |(n : ℚ)| then .error .overflowError else .ok (n : ℚ)

/-- Float multiplication: sign rules for the infinities, `inf * 0 = nan`,
silent overflow on finite operands. -/
def pfMul : PF → PF → PF
  | .nan, _ => .nan
  | _, .nan => .nan
  | .fin a, .fin b => clampF (a * b)
  | .fin a, .inf => if 0 < a then .inf else if a < 0 then .ninf else .nan
  | .fin a, .ninf => if 0 < a then .ninf else if a < 0 then .inf else .nan
  | .inf, .fin b => if 0 < b then .inf else if b < 0 then .ninf else .nan
  | .ninf, .fin b => if 0 < b then .ninf else if b < 0 then .inf else .nan
  | .inf, .inf => .inf
  | .inf, .ninf => .ninf
  | .ninf, .inf => .ninf
  | .ninf, .ninf => .inf

/-- Float subtraction: an infinite minuend absorbs a finite subtrahend,
opposite infinities give NaN, finite results overflow silently. -/
def pfSub : PF → PF → PF
  | .nan, _ => .nan
  | _, .nan => .nan
  | .fin a, .fin b => clampF (a - b)
  | .inf, .fin _ => .inf
  | .ninf, .fin _ => .ninf
  | .fin _, .inf => .ninf
  | .fin _, .ninf => .inf
  | .inf, .inf => .nan
  | .inf, .ninf => .inf
  | .ninf, .inf => .ninf
  | .ninf, .ninf => .nan

/-- Float division by a nonzero finite divisor. -/
def pfDivNZ (x : PF) (d : ℚ) : PF :=
  match x with
  | .fin a => clampF (a / d)
  | .inf => if 0 < d then .inf else .ninf
  | .ninf => if 0 < d then .ninf else .inf
  | .nan => .nan

/-- The `try` block of `calculate_monthly_payment` (`loan_system.py` lines
34-38) in the bounded layer.  The float power operator raises `OverflowError`
("math range error") when its result leaves the range; the Python-int
principal is converted to float on first use in `principal * monthly_rate`
and that conversion raises `OverflowError` when out of range; a zero
denominator raises `ZeroDivisionError`. -/
def tryAmort (principal : ℤ) (monthly_rate : ℚ) (n : ℕ) : Except PyErr PF :=
  if FLOAT_BOUND ≤ |(1 + monthly_rate) ^ n| then .error .overflowError
  else if FLOAT_BOUND ≤ |(principal : ℚ)| then .error .overflowError
  else if (1 + monthly_rate) ^ n - 1 = 0 then .error .zeroDivisionError
  else .ok (pfDivNZ (pfMul (clampF ((principal : ℚ) * monthly_rate))
      (.fin ((1 + monthly_rate) ^ n))) ((1 + monthly_rate) ^ n - 1))

/-- `calculate_monthly_payment` (`loan_system.py` lines 19-41) in the bounded
layer, for a Python-int principal as exercised by the repository's overflow
test.  The zero-rate branch divides the two ints outside any `try`: it raises
`ZeroDivisionError` if `num_payments` is zero (unreachable past the
degenerate guard) and `OverflowError` if the exact quotient is out of float
range; errors inside the `try` block are caught and become `float('inf')`. -/
def calculate_monthly_payment_f (principal : ℤ) (annual_rate : ℚ) (term_years : ℤ) :
    Except PyErr PF :=
  if principal ≤ 0 ∨ term_years ≤ 0 then .ok (.fin 0)
  else if annual_rate / 100 / 12 = 0 then
    if term_years * 12 = 0 then .error .zeroDivisionError
    else if FLOAT_BOUND ≤ |(principal : ℚ) / ((term_years * 12 : ℤ) : ℚ)| then
      .error .overflowError
    else .ok (.fin ((principal : ℚ) / ((term_years * 12 : ℤ) : ℚ)))
  else
    match tryAmort principal (annual_rate / 100 / 12) (term_years * 12).toNat with
    | .ok v => .ok v
    | .error _ => .ok .inf

/-- `calculate_total_interest` (`loan_system.py` lines 43-46) in the bounded
layer: `total_paid = monthly_payment * (term_years * 12)` converts the int
`term_years * 12` to float, then `total_paid - principal` converts the
Python-int principal to float; either conversion raises `OverflowError`
uncaught, since this function has no exception handler. -/
def calculate_total_interest_f (principal : ℤ) (monthly_payment : PF) (term_years : ℤ) :
    Except PyErr PF :=
  match intToFloat (term_years * 12) with
  | .error e => .error e
  | .ok n =>
    match intToFloat principal with
    | .error e => .error e
    | .ok p => .ok (pfSub (pfMul monthly_payment (.fin n)) (.fin p))

/-- The monthly-payment computation at principal `10^1000`, rate 5.0, term 30
returns the `+inf` sentinel: the conversion of the principal raises
`OverflowError` inside the `try` block, which is caught. -/
lemma payment_f_overflow : calculate_monthly_payment_f (10 ^ 1000) 5 30 = .ok .inf := by
  have htry : tryAmort (10 ^ 1000) (5 / 100 / 12) (((30 : ℤ) * 12).toNat)
      = .error .overflowError := by
    unfold tryAmort
    rw [if_neg, if_pos]
    · rw [show (((10 : ℤ) ^ 1000 : ℤ) : ℚ) = 10 ^ 1000 by push_cast; ring,
        abs_of_pos (by positivity)]
      unfold FLOAT_BOUND
      norm_num
    · rw [abs_of_pos (by positivity), not_le]
      unfold FLOAT_BOUND
      norm_num [show (((30 : ℤ) * 12).toNat) = 360 from rfl, show Int.toNat 360 = 360 from rfl]
  unfold calculate_monthly_payment_f
  rw [if_neg (by push_neg; exact ⟨by positivity, by norm_num⟩), if_neg (by norm_num), htry]

/-- Feeding the `+inf` payment back into `calculate_total_interest` together
with the same integer principal `10^1000` raises an uncaught `OverflowError`:
`total_paid - principal` must convert the principal to float. -/
lemma total_interest_f_overflow :
    calculate_total_interest_f (10 ^ 1000) .inf 30 = .error .overflowError := by
  have h1 : intToFloat ((30 : ℤ) * 12) = .ok (((30 : ℤ) * 12 : ℤ) : ℚ) := by
    unfold intToFloat
    rw [if_neg]
    rw [not_le, show (((30 : ℤ) * 12 : ℤ) : ℚ) = 360 by push_cast; ring, abs_of_pos (by norm_num)]
    unfold FLOAT_BOUND
    norm_num
  have h2 : intToFloat ((10 : ℤ) ^ 1000) = .error .overflowError := by
    unfold intToFloat
    rw [if_pos]
    rw [show (((10 : ℤ) ^ 1000 : ℤ) : ℚ) = 10 ^ 1000 by push_cast; ring,
      abs_of_pos (by positivity)]
    unfold FLOAT_BOUND
    norm_num
  unfold calculate_total_interest_f
  rw [h1, h2]

/-- C3 counterexample: the monthly payment at principal `10^1000`, rate 5.0,
term 30 is the `+inf` sentinel, but the total-interest computation at that
very input raises `OverflowError` — a fault, not `+inf`, contradicting the
claim's second half. -/
theorem overflow_total_interest_counterexample :
    calculate_monthly_payment_f (10 ^ 1000) 5 30 = .ok .inf ∧
    calculate_total_interest_f (10 ^ 1000) .inf 30 = .error .overflowError ∧
    (Except.error PyErr.overflowError ≠ (Except.ok PF.inf : Except PyErr PF)) :=
  ⟨payment_f_overflow, total_interest_f_overflow, by simp⟩

/-- C3 amended: the monthly payment at principal `10^1000`, rate 5.0, term 30
is the `+inf` sentinel (no exception escapes), and the `+inf` payment
propagates through the total-interest computation whenever the principal
passed with it is float-representable; with the non-representable integer
`10^1000` itself, that computation instead raises `OverflowError`. -/
theorem overflow_sentinel_propagation (p : ℤ) (hp : 0 < p)
    (hrep : (p : ℚ) < FLOAT_BOUND) :
    calculate_monthly_payment_f (10 ^ 1000) 5 30 = .ok .inf ∧
    calculate_total_interest_f p .inf 30 = .ok .inf := by
  refine ⟨payment_f_overflow, ?_⟩
  have h1 : intToFloat ((30 : ℤ) * 12) = .ok (((30 : ℤ) * 12 : ℤ) : ℚ) := by
    unfold intToFloat
    rw [if_neg]
    rw [not_le, show (((30 : ℤ) * 12 : ℤ) : ℚ) = 360 by push_cast; ring, abs_of_pos (by norm_num)]
    unfold FLOAT_BOUND
    norm_num
  have h2 : intToFloat p = .ok ((p : ℤ) : ℚ) := by
    unfold intToFloat
    rw [if_neg]
    rw [not_le, abs_of_pos (by exact_mod_cast hp)]
    exact hrep
  have h3 : pfMul .inf (.fin (((30 : ℤ) * 12 : ℤ) : ℚ)) = .inf := by
    show (if (0 : ℚ) < (((30 : ℤ) * 12 : ℤ) : ℚ) then PF.inf
      else if (((30 : ℤ) * 12 : ℤ) : ℚ) < 0 then PF.ninf else PF.nan) = PF.inf
    rw [if_pos (by push_cast; norm_num)]
  unfold calculate_total_interest_f
  rw [h1, h2]
  show Except.ok (pfSub (pfMul PF.inf (PF.fin (((30 : ℤ) * 12 : ℤ) : ℚ))) (PF.fin (p : ℚ)))
    = Except.ok PF.inf
  rw [h3]
  rfl

/-- Witness for the amended C3 at the float-representable principal 200000. -/
theorem overflow_sentinel_propagation_witness :
    (0 : ℤ) < 200000 ∧ ((200000 : ℤ) : ℚ) < FLOAT_BOUND ∧
    (calculate_monthly_payment_f (10 ^ 1000) 5 30 = .ok .inf ∧
      calculate_total_interest_f 200000 .inf 30 = .ok .inf) := by
  have hrep : ((200000 : ℤ) : ℚ) < FLOAT_BOUND := by
    unfold FLOAT_BOUND
    push_cast
    norm_num
  exact ⟨by norm_num, hrep, overflow_sentinel_propagation 200000 (by norm_num) hrep⟩

/-- C9: with `term_years = 0` both the console function and its bounded-layer
model take the degenerate branch before the rate test, so the zero-interest
division by `term_years * 12` is never reached: for every principal and rate
the result is the finite 0 and no exception (`Except.error`) is produced,
although the zero-rate division in the bounded layer would raise
`ZeroDivisionError` if it were ever reached with `num_payments = 0`. -/
theorem zero_term_total :
    (∀ (p : ℤ) (r : ℚ), calculate_monthly_payment_f p r 0 = .ok (.fin 0)) ∧
    (∀ (P r : ℚ), calculate_monthly_payment P r 0 = .fin 0) := by
  constructor
  · intro p r
    unfold calculate_monthly_payment_f
    rw [if_pos (Or.inr le_rfl)]
  · intro P r
    unfold calculate_monthly_payment
    rw [if_pos (Or.inr le_rfl)]
